import Mathlib

/-!
Verification development for the ghost-report repository.

The backend (backend/server.js) is an Express application over a relational
store (SQLite in development, MySQL in production) whose schema and seed data
come from backend/db_init.sql.  This file gives a shallow embedding of the
data model and of the request handlers that the specification talks about:
each handler becomes a pure function from a request and a `Store` to an
`ApiResult` and an updated `Store`.  JavaScript value coercions that the
handlers rely on (truthiness, `Number(...)`, `x || y`) are modelled
explicitly.
-/

namespace GhostReport

/-! ### JavaScript value semantics -/

/-- A JSON field value as the handlers see it, restricted to the shapes that
can reach the numeric coercions in server.js: missing (`undefined`), `null`,
a number, a string, or a boolean. -/
inductive JsVal where
  | absent
  | nullv
  | num (n : Int)
  | str (s : String)
  | boolv (b : Bool)
deriving DecidableEq, Repr

/-- Decimal digit value of a character, if any. -/
def digitVal (c : Char) : Option Nat :=
  if c.isDigit then some (c.toNat - 48) else none

/-- Parse a non-empty run of decimal digits into a number (accumulator style);
`none` when a non-digit appears or the run is empty. -/
def parseDigits : List Char → Option Nat → Option Nat
  | [], acc => acc
  | c :: cs, acc =>
      match digitVal c, acc with
      | some d, some a => parseDigits cs (some (a * 10 + d))
      | some d, none => parseDigits cs (some d)
      | none, _ => none

/-- Digits-only string-to-Nat conversion, as the SQL layer coerces a numeric
path parameter; non-numeric strings give `none`. -/
def strToNat (s : String) : Option Nat := parseDigits s.toList none

/-- Whitespace for the purposes of the JavaScript numeric coercion. -/
def isSpaceChar (c : Char) : Bool := c = ' ' || c = '\t' || c = '\n' || c = '\r'

/-- JavaScript `Number(...)` on a string, restricted to optional-sign integer
literals: surrounding whitespace is trimmed, the empty (or all-whitespace)
string coerces to `0`, an integer literal to its value, anything else to NaN
(`none`). -/
def jsStrToNumber (s : String) : Option Int :=
  let cs := s.toList.dropWhile isSpaceChar
  let cs2 := (cs.reverse.dropWhile isSpaceChar).reverse
  match cs2 with
  | [] => some 0
  | '-' :: rest => (parseDigits rest none).map (fun n => -(n : Int))
  | '+' :: rest => (parseDigits rest none).map (fun n => (n : Int))
  | _ => (parseDigits cs2 none).map (fun n => (n : Int))

/-- JavaScript `Number(...)`: `none` models NaN. `Number(undefined)` is NaN,
`Number(null)` is `0`, booleans coerce to `0`/`1`. -/
def jsToNumber : JsVal → Option Int
  | JsVal.absent => none
  | JsVal.nullv => some 0
  | JsVal.num n => some n
  | JsVal.str s => jsStrToNumber s
  | JsVal.boolv b => some (if b then 1 else 0)

/-- Whether a JSON value is literally a number (as opposed to a string or
boolean that merely coerces to one). -/
def JsVal.isNum : JsVal → Bool
  | JsVal.num _ => true
  | _ => false

/-- Truthiness of an optional numeric field (`undefined` and `0` are falsy). -/
def natFieldTruthy : Option Nat → Bool
  | none => false
  | some n => decide (n ≠ 0)

/-- Truthiness of an optional string field (`undefined` and `""` are falsy). -/
def strFieldTruthy : Option String → Bool
  | none => false
  | some s => decide (s ≠ "")

/-- JavaScript `v || null` on a nullable numeric column value: `0` collapses
to `null`. -/
def jsNumOrNull (v : Option Int) : Option Int :=
  match v with
  | none => none
  | some n => if n = 0 then none else some n

/-! ### Relational data model

Row types follow `CREATE TABLE` in backend/db_init.sql together with the
columns the handlers in backend/server.js read and write.  `DATETIME` values
are modelled as natural numbers `yyyymmddhhmmss` (numeric order agrees with
chronological order), and `DECIMAL(11,8)` coordinates as integers counting
`10 ^ -8` degree units.  A SQL NULL is encoded as `none` in the Option
columns and as the falsy value of the column type elsewhere (`0` for numbers
and datetimes, `""` for strings): the handlers only ever test these values
for JavaScript falsiness (`r.time ? ... : ...`, `r.description || ...`), and
`0` sorts below every real `yyyymmddhhmmss` timestamp, matching both engines
sorting NULLs last under `ORDER BY ... DESC` and first under `ASC`. -/

structure UserRow where
  id : Nat
  username : String
  password : String
  email : String
deriving DecidableEq, Repr

/-- Modelled from the spec: the runtime Sighting table of the deployed store
has a `description` column (spec section 3 and section 4.3, and every
Sighting query in server.js reads or writes it), while the shipped
backend/db_init.sql `CREATE TABLE Sighting` omits that column — see
`sightingTableColumns` below for the shipped column list. -/
structure SightingRow where
  id : Nat
  visibility : Int
  time : Nat
  userReportID : Nat
  latitude : Option Int
  longitude : Option Int
  description : String
deriving DecidableEq, Repr

structure GhostRow where
  id : Nat
  gtype : String
  name : String
  description : String
  visibility : Int
deriving DecidableEq, Repr

structure TourRow where
  id : Nat
  startTime : Nat
  endTime : Nat
  guide : String
  path : String
deriving DecidableEq, Repr

structure SightingCommentRow where
  userID : Nat
  sightingID : Nat
  reportTime : Nat
  description : String
deriving DecidableEq, Repr

structure GhostCommentRow where
  userID : Nat
  ghostID : Nat
  reportTime : Nat
  description : String
deriving DecidableEq, Repr

structure SightingReportsGhostRow where
  sightingID : Nat
  ghostID : Nat
deriving DecidableEq, Repr

structure TourIncludesRow where
  tourID : Nat
  ghostID : Nat
deriving DecidableEq, Repr

structure TourSignUpRow where
  userID : Nat
  tourID : Nat
deriving DecidableEq, Repr

structure GhostBusterRow where
  userID : Nat
  ghostsBusted : Int
  gbAlias : Option String
deriving DecidableEq, Repr

structure FightRow where
  userID : Nat
  ghostID : Nat
deriving DecidableEq, Repr

/-- The relational store: one list per table, the AUTO_INCREMENT counters of
the four surrogate-key tables, and the current wall-clock time used for
`NOW()` / `datetime(now)`. -/
structure Store where
  users : List UserRow
  sightings : List SightingRow
  ghosts : List GhostRow
  tours : List TourRow
  sightingComments : List SightingCommentRow
  ghostComments : List GhostCommentRow
  sightingReportsGhost : List SightingReportsGhostRow
  tourIncludes : List TourIncludesRow
  tourSignUps : List TourSignUpRow
  ghostBusters : List GhostBusterRow
  fights : List FightRow
  nextUserId : Nat
  nextSightingId : Nat
  nextGhostId : Nat
  nextTourId : Nat
  now : Nat
deriving DecidableEq, Repr

/-- A fresh store: empty tables, AUTO_INCREMENT counters at 1. -/
def emptyStore : Store where
  users := []
  sightings := []
  ghosts := []
  tours := []
  sightingComments := []
  ghostComments := []
  sightingReportsGhost := []
  tourIncludes := []
  tourSignUps := []
  ghostBusters := []
  fights := []
  nextUserId := 1
  nextSightingId := 1
  nextGhostId := 1
  nextTourId := 1
  now := 20251011000000

/-! ### Bootstrap seeding (initSqlite / initMysql)

The init code first executes the statement chunks matching the
`^CREATE TABLE` test (idempotent), then — only when the `User` count is zero
(an error counts as zero) — executes every remaining chunk of db_init.sql,
swallowing individual failures.  This models the SQLite development
bootstrap, the only engine whose seeding is reachable on a fresh database
(under MySQL the `CREATE TABLE User` chunk starts with a section-comment
line, fails the create-phase test, and the dependent tables and the User
count query then error into the outer catch before any seeding).  The row
effects of the seed phase are:
- the literal `INSERT ... VALUES` blocks of the Populate section;
- the four parameterized statements of the User Input section whose SQL is
  otherwise valid — node-sqlite3 binds every unbound `?` as NULL, so they
  insert an all-NULL Sighting, an all-NULL Tour, a (NULL, NULL)
  Tour_Sign_Up row and an all-NULL Ghost (NULL foreign keys and NULL
  composite-key components are accepted);
- nothing else: the statements naming `newSightingID`/`newTourID` or using
  `NOW()` error under SQLite, the UPDATE/DELETE design statements bind NULL
  into their WHERE clauses and match no row, the `ALTER TABLE ... CHECK` is
  unsupported, and the `DELIMITER`/trigger block is split mid-statement.
AUTO_INCREMENT ids for User/Sighting/Ghost/Tour are allocated from the
counters; the link and role tables use the literal ids from db_init.sql. -/
def seedStatements (s : Store) : Store :=
  let u0 := s.nextUserId
  let si0 := s.nextSightingId
  let g0 := s.nextGhostId
  let t0 := s.nextTourId
  { s with
    users := s.users ++ [
      ⟨u0, "spooky_sam", "hashed_password_123", "sam@ghosthunters.com"⟩,
      ⟨u0 + 1, "paranormal_pat", "hashed_password_456", "pat@spiritwatch.com"⟩,
      ⟨u0 + 2, "ecto_emily", "hashed_password_789", "emily@ghostbusters.net"⟩,
      ⟨u0 + 3, "phantom_phil", "hashed_password_abc", "phil@hauntedplaces.org"⟩,
      ⟨u0 + 4, "mystic_maya", "hashed_password_def", "maya@supernatural.com"⟩],
    nextUserId := u0 + 5,
    ghostBusters := s.ghostBusters ++ [
      ⟨1, 47, some "The Specter Detector"⟩,
      ⟨3, 23, some "Ectoplasm Expert"⟩,
      ⟨4, 89, some "Phantom Finder"⟩],
    sightings := s.sightings ++ [
      ⟨si0, 8, 20241031234500, 1, some 4071280000, some (-7400600000), ""⟩,
      ⟨si0 + 1, 5, 20241101023000, 2, some 5150740000, some (-12780000), ""⟩,
      ⟨si0 + 2, 9, 20241102001500, 3, some 3405220000, some (-11824370000), ""⟩,
      ⟨si0 + 3, 3, 20241103032000, 4, some 4187810000, some (-8762980000), ""⟩,
      ⟨si0 + 4, 7, 20241104010000, 5, some 2976040000, some (-9536980000), ""⟩,
      ⟨si0 + 5, 0, 0, 0, none, none, ""⟩],
    nextSightingId := si0 + 6,
    ghosts := s.ghosts ++ [
      ⟨g0, "Poltergeist", "The Knocker",
        "A mischievous spirit known for rapping on walls and moving objects in abandoned warehouses", 3⟩,
      ⟨g0 + 1, "Apparition", "Lady Grey",
        "A Victorian-era woman in a grey dress, often seen wandering old manors at midnight", 4⟩,
      ⟨g0 + 2, "Shadow Person", "The Dark Watcher",
        "A tall shadowy figure that appears in peripheral vision, particularly in dimly lit corridors", 2⟩,
      ⟨g0 + 3, "Phantom", "Weeping William",
        "The ghost of a sailor who can be heard crying near old docks and harbors", 3⟩,
      ⟨g0 + 4, "Specter", "The Headless Coachman",
        "A headless figure driving a phantom carriage through foggy streets", 5⟩,
      ⟨g0 + 5, "", "", "", 0⟩],
    nextGhostId := g0 + 6,
    tours := s.tours ++ [
      ⟨t0, 20241115190000, 20241115220000, "Ghostly Gerald",
        "Old Town Square -> Haunted Manor -> Cemetery Gates -> Abandoned Hospital"⟩,
      ⟨t0 + 1, 20241116200000, 20241116230000, "Spooky Susan",
        "Waterfront Docks -> Colonial Church -> Historic Theater -> Witch Trial Site"⟩,
      ⟨t0 + 2, 20241117183000, 20241117213000, "Creepy Carl",
        "Victorian District -> Old Prison -> Haunted Bridge -> Ghost Alley"⟩,
      ⟨t0 + 3, 20241122193000, 20241122223000, "Paranormal Pam",
        "Ancient Graveyard -> Cursed Mansion -> Phantom Forest Trail"⟩,
      ⟨t0 + 4, 0, 0, "", ""⟩],
    nextTourId := t0 + 5,
    sightingComments := s.sightingComments ++ [
      ⟨2, 1, 20241101100000, "I saw the same thing in that area last week! Definitely legitimate."⟩,
      ⟨3, 1, 20241101123000, "The temperature dropped significantly when I visited this location."⟩,
      ⟨1, 2, 20241101150000, "Classic apparition behavior. Well documented sighting."⟩,
      ⟨4, 3, 20241102090000, "I captured some EVP recordings near this location around the same time!"⟩,
      ⟨5, 4, 20241103110000, "This matches historical records of hauntings in this building."⟩],
    ghostComments := s.ghostComments ++ [
      ⟨1, 1, 20241025140000, "Encountered this entity three times. Very active poltergeist, handles with care."⟩,
      ⟨2, 2, 20241026163000, "Lady Grey is a peaceful spirit. She seems to be searching for something."⟩,
      ⟨3, 3, 20241027110000, "The Dark Watcher appears most frequently between 2-4 AM. Non-threatening but unsettling."⟩,
      ⟨4, 4, 20241028134500, "Heard the weeping near the old harbor. Very melancholic presence."⟩,
      ⟨5, 5, 20241029100000, "Historical records confirm sightings of this phantom carriage dating back to 1823."⟩],
    sightingReportsGhost := s.sightingReportsGhost ++ [
      ⟨1, 1⟩, ⟨1, 3⟩, ⟨2, 2⟩, ⟨3, 3⟩, ⟨4, 4⟩, ⟨5, 5⟩],
    tourIncludes := s.tourIncludes ++ [
      ⟨1, 1⟩, ⟨1, 2⟩, ⟨1, 3⟩, ⟨2, 4⟩, ⟨2, 2⟩, ⟨3, 3⟩, ⟨3, 5⟩, ⟨4, 1⟩, ⟨4, 2⟩],
    tourSignUps := s.tourSignUps ++ [
      ⟨1, 1⟩, ⟨2, 1⟩, ⟨2, 2⟩, ⟨3, 3⟩, ⟨4, 2⟩, ⟨4, 4⟩, ⟨5, 1⟩, ⟨5, 3⟩, ⟨5, 4⟩, ⟨0, 0⟩],
    fights := s.fights ++ [
      ⟨1, 1⟩, ⟨1, 3⟩, ⟨1, 5⟩, ⟨3, 2⟩, ⟨3, 4⟩, ⟨4, 1⟩, ⟨4, 2⟩, ⟨4, 3⟩, ⟨4, 5⟩] }

/-- Bootstrap (initSqlite lines 79-102 / initMysql lines 138-150): ensure the
schema, count the `User` rows, and execute the seed statements only when that
count is zero. -/
def bootstrap (s : Store) : Store :=
  if s.users.isEmpty then seedStatements s else s

/-! ### API results -/

/-- A JSON response: an HTTP status with either a success body or an
`{error: code}` body. -/
inductive ApiResult (α : Type) where
  | ok (status : Nat) (body : α)
  | err (status : Nat) (error : String)
deriving DecidableEq, Repr

/-- HTTP status of a response. -/
def ApiResult.status {α : Type} : ApiResult α → Nat
  | ApiResult.ok s _ => s
  | ApiResult.err s _ => s

/-! ### GET /api/users/:id (server.js lines 359-370) -/

/-- Response body of the public profile fetch: the `SELECT id, username,
email` projection. -/
structure PublicUser where
  id : Nat
  username : String
  email : String
deriving DecidableEq, Repr

/-- GET /api/users/:id: `SELECT id, username, email FROM User WHERE id = ?`;
404 when no row matches, else the first matching row. -/
def getUser (s : Store) (uid : Nat) : ApiResult PublicUser :=
  match s.users.find? (fun u => u.id == uid) with
  | none => ApiResult.err 404 "not_found"
  | some u => ApiResult.ok 200 ⟨u.id, u.username, u.email⟩

/-- The password-free projection of a User row, for stating that `getUser`
cannot observe the password column. -/
def scrubUser (u : UserRow) : Nat × String × String :=
  (u.id, u.username, u.email)

/-! ### POST /api/sightings (server.js lines 420-539) -/

/-- Request body of POST /api/sightings.  `userId` is the frontend alias for
`userReportID`; `ghostID` being `none` covers both an absent and an empty
selection; `visibility` is an arbitrary JSON value fed to `Number(...)`. -/
structure SightingReq where
  userId : Option Nat
  userReportID : Option Nat
  latitude : Option Int
  longitude : Option Int
  description : String
  ghostID : Option Nat
  timeOfSighting : Option String
  visibility : JsVal
deriving DecidableEq, Repr

/-- Response body of a created sighting (also the row shape of the sighting
list items apart from the joined names). -/
structure SightingResp where
  id : Nat
  visibility : Int
  time : Nat
  userReportID : Nat
  latitude : Option Int
  longitude : Option Int
  description : String
deriving DecidableEq, Repr

/-- `const reporter = userReportID || userId`. -/
def reporterOf (req : SightingReq) : Option Nat :=
  if natFieldTruthy req.userReportID then req.userReportID else req.userId

/-- The `missing_fields` guard: `if (!reporter || !description)`. -/
def sightingValidationFails (req : SightingReq) : Bool :=
  !natFieldTruthy (reporterOf req) || req.description == ""

/-- server.js lines 439-441: use the provided visibility when
`Number(visibility)` is not NaN (and the field is neither absent nor null),
otherwise default to 5. -/
def visibilityNum (v : JsVal) : Int :=
  match v with
  | JsVal.absent => 5
  | JsVal.nullv => 5
  | v => match jsToNumber v with
    | some n => n
    | none => 5

/-- server.js lines 444-446: prepend the literal annotation line when a
truthy free-text time of sighting was supplied. -/
def fullDescriptionOf (req : SightingReq) : String :=
  match req.timeOfSighting with
  | some t => if t ≠ "" then "Reported time: " ++ t ++ "\n" ++ req.description else req.description
  | none => req.description

/-- The find-or-create of the sentinel Ghost named Unknown (server.js lines
462-471 / 506-514): reuse the first Ghost row named Unknown, else insert one
whose visibility is the new sighting visibility. -/
def findOrCreateUnknownGhost (s : Store) (visNum : Int) : Nat × Store :=
  match s.ghosts.find? (fun g => g.name == "Unknown") with
  | some g => (g.id, s)
  | none =>
      let gid := s.nextGhostId
      (gid,
       { s with
          ghosts := s.ghosts ++
            [⟨gid, "Unknown", "Unknown", "Unidentified paranormal entity", visNum⟩],
          nextGhostId := gid + 1 })

/-- The final re-read of POST /api/sightings (`SELECT ... WHERE id = ?` then
`rows[0]`): echo the first row with the new id, with every falsy column
replaced by the in-handler value (`r.description || fullDescription` and so
on); an empty result makes `rows[0]` blow up inside the try, so the catch
answers 500. -/
def sightingRespFor (s3 : Store) (sid : Nat) (visNum : Int) (nowDate : Nat)
    (reporter : Nat) (fullDescription : String) : ApiResult SightingResp :=
  match s3.sightings.find? (fun x => x.id == sid) with
  | none => ApiResult.err 500 "internal"
  | some r =>
      ApiResult.ok 201
        { id := r.id,
          visibility := if r.visibility = 0 then visNum else r.visibility,
          time := if r.time = 0 then nowDate else r.time,
          userReportID := if r.userReportID = 0 then reporter else r.userReportID,
          latitude := r.latitude, longitude := r.longitude,
          description := if r.description = "" then fullDescription else r.description }

/-- The body of POST /api/sightings after the `missing_fields` guard: insert
the Sighting row, associate a Ghost (the given one when truthy, else the
Unknown sentinel), insert the link row when the ghost id is truthy, then
re-read and echo the created row.  The MySQL and SQLite branches differ only
in `NOW()` spelling and generated-id plumbing, which this function models
uniformly. -/
def createSightingCore (s : Store) (req : SightingReq) : ApiResult SightingResp × Store :=
  let visNum := visibilityNum req.visibility
  let fullDescription := fullDescriptionOf req
  let reporter := (reporterOf req).getD 0
  let sid := s.nextSightingId
  let row : SightingRow :=
    { id := sid, visibility := visNum, time := s.now, userReportID := reporter,
      latitude := jsNumOrNull req.latitude, longitude := jsNumOrNull req.longitude,
      description := fullDescription }
  let s1 := { s with sightings := s.sightings ++ [row], nextSightingId := sid + 1 }
  let assoc : Nat × Store :=
    if natFieldTruthy req.ghostID then (req.ghostID.getD 0, s1)
    else findOrCreateUnknownGhost s1 visNum
  let finalGhostId := assoc.1
  let s2 := assoc.2
  let s3 :=
    if finalGhostId ≠ 0 then
      { s2 with sightingReportsGhost := s2.sightingReportsGhost ++ [⟨sid, finalGhostId⟩] }
    else s2
  (sightingRespFor s3 sid visNum s.now reporter fullDescription, s3)

/-- POST /api/sightings over the runtime store whose Sighting table has the
description column (see `SightingRow`). -/
def createSighting (s : Store) (req : SightingReq) : ApiResult SightingResp × Store :=
  if sightingValidationFails req then (ApiResult.err 400 "missing_fields", s)
  else createSightingCore s req

/-- Column list of `CREATE TABLE Sighting` in backend/db_init.sql (lines
17-25): there is no description column. -/
def sightingTableColumns : List String :=
  ["id", "visibility", "time", "userReportID", "latitude", "longitude"]

/-- Columns named by the `INSERT INTO Sighting` of POST /api/sightings
(server.js lines 451 and 496). -/
def sightingInsertColumns : List String :=
  ["visibility", "time", "userReportID", "latitude", "longitude", "description"]

/-- Whether the handler insert is accepted by the shipped schema: every
column it names must exist on the table. -/
def sightingInsertAccepted : Bool :=
  sightingInsertColumns.all (fun c => sightingTableColumns.contains c)

/-- POST /api/sightings against a store initialized from the shipped
backend/db_init.sql: the `missing_fields` guard runs first; inside the try
block the INSERT errors when it names a column the Sighting table does not
define, and the catch maps the error to 500 `{error: internal}` with no row
stored. -/
def createSightingShipped (s : Store) (req : SightingReq) : ApiResult SightingResp × Store :=
  if sightingValidationFails req then (ApiResult.err 400 "missing_fields", s)
  else if sightingInsertAccepted then createSightingCore s req
  else (ApiResult.err 500 "internal", s)

/-- POST /api/sightings over the runtime store with the foreign keys the
engines enforce (PRAGMA foreign_keys = ON under SQLite, InnoDB under MySQL)
layered on top of `createSightingCore`: a non-NULL `userReportID` absent from
User makes the Sighting INSERT error, so the catch answers 500 with nothing
stored; a truthy supplied `ghostID` absent from Ghost makes the link INSERT
error after the Sighting row has committed (no transaction), so the catch
answers 500 with the Sighting row kept.  The Unknown-sentinel path never
violates the link key because it looks the ghost up or inserts it first. -/
def createSightingWithFk (s : Store) (req : SightingReq) : ApiResult SightingResp × Store :=
  if sightingValidationFails req then (ApiResult.err 400 "missing_fields", s)
  else if (s.users.find? (fun w => w.id == (reporterOf req).getD 0)).isNone then
    (ApiResult.err 500 "internal", s)
  else if natFieldTruthy req.ghostID &&
      (s.ghosts.find? (fun g => g.id == req.ghostID.getD 0)).isNone then
    (ApiResult.err 500 "internal",
     { s with
        sightings := s.sightings ++
          [{ id := s.nextSightingId, visibility := visibilityNum req.visibility,
             time := s.now, userReportID := (reporterOf req).getD 0,
             latitude := jsNumOrNull req.latitude, longitude := jsNumOrNull req.longitude,
             description := fullDescriptionOf req }],
        nextSightingId := s.nextSightingId + 1 })
  else createSightingCore s req

/-- The create-phase filter of both inits, `/^CREATE\s+TABLE/i` applied to
the trimmed statement chunk, specialized to the file's uppercase
single-space spelling.  Chunks that begin with a `---- ... ----` section
comment line fail it. -/
def chunkRunsInCreatePhase (c : String) : Bool :=
  decide (c.toList.take 12 = "CREATE TABLE".toList)

/-- The first statement chunk of backend/db_init.sql as the
semicolon-newline splitter produces it: the section comment line is glued to
the `CREATE TABLE User` statement. -/
def createTableUserChunk : String :=
  "---- Create Tables ----\n\nCREATE TABLE User (\n    id INT AUTO_INCREMENT PRIMARY KEY,\n    username VARCHAR(32),\n    password VARCHAR(64),\n    email VARCHAR(128)\n)"

/-- The statement chunk of backend/db_init.sql that would add the
`checkTime` constraint, likewise glued to its section comment line. -/
def alterCheckTimeChunk : String :=
  "---- Advanced Commands ----\nALTER TABLE Tour\nADD CONSTRAINT checkTime\nCHECK (startTime < endTime)"

/-! ### GET /api/sightings and the comment listings (server.js lines 185-216,
542-568, 266-292)

`ORDER BY` is modelled by `List.insertionSort` (a stable sort, like the SQL
engines on these queries), applied to the table rows before the JSON
mapping. -/

/-- `ORDER BY S.time DESC`. -/
def sightingTimeDesc (a b : SightingRow) : Prop := b.time ≤ a.time

instance : DecidableRel sightingTimeDesc := fun a b => Nat.decLe b.time a.time

instance : IsTotal SightingRow sightingTimeDesc :=
  ⟨fun a b => Nat.le_total b.time a.time⟩

instance : IsTrans SightingRow sightingTimeDesc :=
  ⟨fun _ _ _ h1 h2 => Nat.le_trans h2 h1⟩

/-- `ORDER BY SC.reportTime ASC`. -/
def scReportTimeAsc (a b : SightingCommentRow) : Prop := a.reportTime ≤ b.reportTime

instance : DecidableRel scReportTimeAsc := fun a b => Nat.decLe a.reportTime b.reportTime

instance : IsTotal SightingCommentRow scReportTimeAsc :=
  ⟨fun a b => Nat.le_total a.reportTime b.reportTime⟩

instance : IsTrans SightingCommentRow scReportTimeAsc :=
  ⟨fun _ _ _ h1 h2 => Nat.le_trans h1 h2⟩

/-- `ORDER BY GC.reportTime ASC`. -/
def gcReportTimeAsc (a b : GhostCommentRow) : Prop := a.reportTime ≤ b.reportTime

instance : DecidableRel gcReportTimeAsc := fun a b => Nat.decLe a.reportTime b.reportTime

instance : IsTotal GhostCommentRow gcReportTimeAsc :=
  ⟨fun a b => Nat.le_total a.reportTime b.reportTime⟩

instance : IsTrans GhostCommentRow gcReportTimeAsc :=
  ⟨fun _ _ _ h1 h2 => Nat.le_trans h1 h2⟩

/-- A sighting list item: the sighting columns joined with the reporter
username and at most one associated ghost name. -/
structure SightingListItem where
  id : Nat
  visibility : Int
  time : Nat
  userReportID : Nat
  latitude : Option Int
  longitude : Option Int
  description : String
  username : Option String
  ghostName : String
deriving DecidableEq, Repr

/-- The correlated subquery of GET /api/sightings: the first
Sighting_Reports_Ghost row of the sighting (LIMIT 1), left-joined to Ghost;
a missing link or ghost gives NULL, which the mapping defaults to the
literal label Unknown (`r.ghost_name || 'Unknown'`). -/
def ghostNameFor (s : Store) (sightingId : Nat) : String :=
  match s.sightingReportsGhost.find? (fun l => l.sightingID == sightingId) with
  | none => "Unknown"
  | some l =>
      match s.ghosts.find? (fun g => g.id == l.ghostID) with
      | none => "Unknown"
      | some g => if g.name = "" then "Unknown" else g.name

/-- GET /api/sightings: all Sighting rows ordered by time descending,
left-joined to User for the username, mapped to JSON (`time` falls back to
the current date when falsy, coordinates normalize to null). -/
def listSightings (s : Store) : List SightingListItem :=
  (s.sightings.insertionSort sightingTimeDesc).map (fun r =>
    { id := r.id,
      visibility := r.visibility,
      time := if r.time = 0 then s.now else r.time,
      userReportID := r.userReportID,
      latitude := r.latitude,
      longitude := r.longitude,
      description := r.description,
      username := (s.users.find? (fun u => u.id == r.userReportID)).map (fun u => u.username),
      ghostName := ghostNameFor s r.id })

/-- A comment list item (both comment listings share this shape, with
`targetID` standing for the sighting or ghost id column). -/
structure CommentListItem where
  userID : Nat
  targetID : Nat
  reportTime : Nat
  description : String
  username : String
deriving DecidableEq, Repr

/-- The `r.username || 'User ' + id` default of the comment listings. -/
def commentUsername (s : Store) (uid : Nat) : String :=
  match s.users.find? (fun u => u.id == uid) with
  | none => "User " ++ toString uid
  | some u => if u.username = "" then "User " ++ toString uid else u.username

/-- GET /api/sightings/:sightingId/comments: the Sighting_Comment rows of the
sighting ordered by report time ascending, with the commenter username. -/
def listSightingComments (s : Store) (sightingId : Nat) : List CommentListItem :=
  ((s.sightingComments.filter (fun c => c.sightingID == sightingId)).insertionSort
      scReportTimeAsc).map (fun c =>
    { userID := c.userID, targetID := c.sightingID, reportTime := c.reportTime,
      description := c.description, username := commentUsername s c.userID })

/-- GET /api/ghosts/:ghostId/comments: the Ghost_Comment rows of the ghost
ordered by report time ascending, with the commenter username. -/
def listGhostComments (s : Store) (ghostId : Nat) : List CommentListItem :=
  ((s.ghostComments.filter (fun c => c.ghostID == ghostId)).insertionSort
      gcReportTimeAsc).map (fun c =>
    { userID := c.userID, targetID := c.ghostID, reportTime := c.reportTime,
      description := c.description, username := commentUsername s c.userID })

/-! ### Comment upsert (server.js lines 571-632 and 295-356) -/

/-- Response body of a posted comment; `message` is present exactly on the
update path. -/
structure CommentResp where
  userID : Nat
  targetID : Nat
  description : String
  message : Option String
deriving DecidableEq, Repr

/-- POST /api/sightings/:sightingId/comments: 400 when user id or description
is falsy; if a row with the (user, sighting) composite key exists, update its
description and report time in place and answer 200, else insert a new row
and answer 201. -/
def postSightingComment (s : Store) (sightingId : Nat) (userID : Option Nat)
    (description : String) : ApiResult CommentResp × Store :=
  if !natFieldTruthy userID || description == "" then
    (ApiResult.err 400 "userID and description are required", s)
  else
    let u := userID.getD 0
    let existing := s.sightingComments.filter
      (fun c => c.userID == u && c.sightingID == sightingId)
    if existing.length > 0 then
      (ApiResult.ok 200 ⟨u, sightingId, description, some "Comment updated"⟩,
       { s with sightingComments := s.sightingComments.map (fun c =>
          if c.userID == u && c.sightingID == sightingId then
            { c with description := description, reportTime := s.now }
          else c) })
    else
      (ApiResult.ok 201 ⟨u, sightingId, description, none⟩,
       { s with sightingComments :=
          s.sightingComments ++ [⟨u, sightingId, s.now, description⟩] })

/-- POST /api/ghosts/:ghostId/comments: structurally identical to the
sighting variant over the Ghost_Comment table. -/
def postGhostComment (s : Store) (ghostId : Nat) (userID : Option Nat)
    (description : String) : ApiResult CommentResp × Store :=
  if !natFieldTruthy userID || description == "" then
    (ApiResult.err 400 "userID and description are required", s)
  else
    let u := userID.getD 0
    let existing := s.ghostComments.filter
      (fun c => c.userID == u && c.ghostID == ghostId)
    if existing.length > 0 then
      (ApiResult.ok 200 ⟨u, ghostId, description, some "Comment updated"⟩,
       { s with ghostComments := s.ghostComments.map (fun c =>
          if c.userID == u && c.ghostID == ghostId then
            { c with description := description, reportTime := s.now }
          else c) })
    else
      (ApiResult.ok 201 ⟨u, ghostId, description, none⟩,
       { s with ghostComments := s.ghostComments ++ [⟨u, ghostId, s.now, description⟩] })

/-! ### Tour operations (server.js lines 768-810, 861-892, 895-915) -/

/-- Request body of POST /api/tours.  Times are DATETIME strings in JS;
`none` models an absent or falsy value. -/
structure TourReq where
  guide : String
  path : String
  startTime : Option Nat
  endTime : Option Nat
  ghostIDs : Option (List Nat)
deriving DecidableEq, Repr

/-- Response body of a created tour. -/
structure TourResp where
  id : Nat
  guide : String
  path : String
  startTime : Nat
  endTime : Nat
deriving DecidableEq, Repr

/-- The handler's loop of single `INSERT INTO Tour_Includes` statements: a
ghost id absent from Ghost violates the ghostID foreign key, and a repeated
(tourID, ghostID) pair violates the primary key; either error throws into
the handler's catch with the earlier inserts already committed (no
transaction). -/
def insertTourIncludes (s : Store) (tourId : Nat) : List Nat → Bool × Store
  | [] => (true, s)
  | g :: gs =>
      if (s.ghosts.find? (fun x => x.id == g)).isNone ||
          s.tourIncludes.any (fun x => x.tourID == tourId && x.ghostID == g) then
        (false, s)
      else
        insertTourIncludes
          { s with tourIncludes := s.tourIncludes ++ [⟨tourId, g⟩] } tourId gs

/-- POST /api/tours: validate presence of guide, path, startTime, endTime and
a non-empty ghost list, insert the Tour row, then the inclusion rows (500
when one of those errors, with the Tour row already committed).  The handler
never compares startTime and endTime, and no engine ever installs the
`checkTime` CHECK constraint written in db_init.sql: its ALTER TABLE chunk
begins with the section-comment line `---- Advanced Commands ----`, so it
fails the create-phase test (see `chunkRunsInCreatePhase`); in the seed
phase SQLite rejects `ADD CONSTRAINT` and MySQL rejects the `----` comment
spelling, both failures swallowed — and fresh-database MySQL never reaches
seeding at all because the `CREATE TABLE User` chunk fails the same test and
the User count query then errors into the outer catch. -/
def createTour (s : Store) (req : TourReq) : ApiResult TourResp × Store :=
  if req.guide == "" || req.path == "" || !req.startTime.isSome || !req.endTime.isSome then
    (ApiResult.err 400 "guide, path, startTime, and endTime are required", s)
  else
    match req.ghostIDs with
    | none => (ApiResult.err 400 "at least one ghost must be selected", s)
    | some gids =>
      if gids.isEmpty then (ApiResult.err 400 "at least one ghost must be selected", s)
      else
        let st := req.startTime.getD 0
        let en := req.endTime.getD 0
        let tourId := s.nextTourId
        let newTour : TourRow := ⟨tourId, st, en, req.guide, req.path⟩
        let s1 := { s with tours := s.tours ++ [newTour],
                           nextTourId := tourId + 1 }
        let r := insertTourIncludes s1 tourId gids
        if r.1 then (ApiResult.ok 201 ⟨tourId, req.guide, req.path, st, en⟩, r.2)
        else (ApiResult.err 500 "internal", r.2)

/-- Response body of the join/leave endpoints (only the fields a theorem
inspects; the JSON bodies differ per branch). -/
structure JoinResp where
  message : Option String
  userID : Option Nat
  tourID : Option Nat
deriving DecidableEq, Repr

/-- POST /api/tours/:tourId/join: 400 on falsy user id; 200 `already_signed_up`
with no insert when a Tour_Sign_Up row exists; else insert and 201. -/
def joinTour (s : Store) (tourId : Nat) (userID : Option Nat) :
    ApiResult JoinResp × Store :=
  if !natFieldTruthy userID then (ApiResult.err 400 "userID is required", s)
  else
    let u := userID.getD 0
    let existing := s.tourSignUps.filter (fun r => r.userID == u && r.tourID == tourId)
    if existing.length > 0 then
      (ApiResult.ok 200 ⟨some "already_signed_up", none, none⟩, s)
    else
      (ApiResult.ok 201 ⟨none, some u, some tourId⟩,
       { s with tourSignUps := s.tourSignUps ++ [⟨u, tourId⟩] })

/-- DELETE /api/tours/:tourId/leave: 400 on falsy user id; else delete the
matching rows (possibly zero) and answer 200 `left_tour` unconditionally. -/
def leaveTour (s : Store) (tourId : Nat) (userID : Option Nat) :
    ApiResult JoinResp × Store :=
  if !natFieldTruthy userID then (ApiResult.err 400 "userID is required", s)
  else
    let u := userID.getD 0
    (ApiResult.ok 200 ⟨some "left_tour", none, none⟩,
     { s with tourSignUps :=
        s.tourSignUps.filter (fun r => !(r.userID == u && r.tourID == tourId)) })

/-! ### Ghost-buster and fight state (server.js lines 655-688, 691-722,
932-958, 961-985) and the frontend bust flow (GhostDetail handleBustGhost) -/

/-- Response body of the fight toggle. -/
structure FightResp where
  fighting : Bool
  ghostId : Nat
  userId : Nat
deriving DecidableEq, Repr

/-- PUT /api/users/:id/fights/:ghostId: 400 unless `fighting` is a boolean;
`true` inserts the fight row when missing (201, else 200); `false` deletes it
and answers 200. -/
def putUserFights (s : Store) (userId ghostId : Nat) (fighting : Option Bool) :
    ApiResult FightResp × Store :=
  match fighting with
  | none => (ApiResult.err 400 "fighting boolean required", s)
  | some true =>
      let existing := s.fights.filter (fun f => f.userID == userId && f.ghostID == ghostId)
      if existing.length > 0 then (ApiResult.ok 200 ⟨true, ghostId, userId⟩, s)
      else
        (ApiResult.ok 201 ⟨true, ghostId, userId⟩,
         { s with fights := s.fights ++ [⟨userId, ghostId⟩] })
  | some false =>
      (ApiResult.ok 200 ⟨false, ghostId, userId⟩,
       { s with fights :=
          s.fights.filter (fun f => !(f.userID == userId && f.ghostID == ghostId)) })

/-- Response body of the ghost-buster role endpoints. -/
structure GhostBusterResp where
  isGhostBuster : Bool
  ghostsBusted : Option Int
  gbAlias : Option String
deriving DecidableEq, Repr

/-- PUT /api/users/:id/ghost-buster: 400 unless `isGhostBuster` is a boolean;
`true` answers the existing row (200) or inserts a zero-initialized one
(201); `false` deletes the row and answers 200. -/
def putGhostBuster (s : Store) (userId : Nat) (isGhostBuster : Option Bool) :
    ApiResult GhostBusterResp × Store :=
  match isGhostBuster with
  | none => (ApiResult.err 400 "isGhostBuster boolean required", s)
  | some true =>
      match s.ghostBusters.find? (fun b => b.userID == userId) with
      | some b => (ApiResult.ok 200 ⟨true, some b.ghostsBusted, b.gbAlias⟩, s)
      | none =>
          (ApiResult.ok 201 ⟨true, some 0, none⟩,
           { s with ghostBusters := s.ghostBusters ++ [⟨userId, 0, none⟩] })
  | some false =>
      (ApiResult.ok 200 ⟨false, none, none⟩,
       { s with ghostBusters := s.ghostBusters.filter (fun b => !(b.userID == userId)) })

/-- PUT /api/users/:id/ghost-buster/alias: update the alias of an existing
row (200), else insert a row with `ghosts_busted = 0` and `alias || null`
(201).  The body alias is `none` for absent/null, `some a` for a string. -/
def putGhostBusterAlias (s : Store) (userId : Nat) (gbAlias : Option String) :
    ApiResult GhostBusterResp × Store :=
  match s.ghostBusters.find? (fun b => b.userID == userId) with
  | some _ =>
      (ApiResult.ok 200 ⟨true, none, gbAlias⟩,
       { s with ghostBusters := s.ghostBusters.map (fun b =>
          if b.userID == userId then { b with gbAlias := gbAlias } else b) })
  | none =>
      let stored := match gbAlias with
        | some a => if a = "" then none else some a
        | none => none
      (ApiResult.ok 201 ⟨true, some 0, stored⟩,
       { s with ghostBusters := s.ghostBusters ++ [⟨userId, 0, stored⟩] })

/-- PUT /api/sightings/:sightingId/ghost-name: rename the first Ghost linked
to the sighting; 400 on a falsy name, 404 when no link row exists, 500 when
the linked ghost id is falsy. -/
def putSightingGhostName (s : Store) (sightingId : Nat) (newName : Option String) :
    ApiResult Bool × Store :=
  if !strFieldTruthy newName then (ApiResult.err 400 "newName is required", s)
  else
    match s.sightingReportsGhost.find? (fun l => l.sightingID == sightingId) with
    | none => (ApiResult.err 404 "no_ghost_linked", s)
    | some l =>
        if l.ghostID = 0 then (ApiResult.err 500 "invalid_ghost_id", s)
        else
          (ApiResult.ok 200 true,
           { s with ghosts := s.ghosts.map (fun g =>
              if g.id == l.ghostID then { g with name := newName.getD "" } else g) })

/-- The PUT routes registered in backend/server.js, by path shape (lines 655,
691, 932, 961); the shapes are disjoint, so registration order is
irrelevant. -/
inductive PutRoute where
  | ghostBuster (id : String)
  | ghostName (sightingId : String)
  | fights (id ghostId : String)
  | ghostBusterAlias (id : String)
deriving DecidableEq, Repr

/-- Express route matching for PUT requests: the four registered patterns, or
no match. -/
def matchPutRoute : List String → Option PutRoute
  | ["api", "users", id, "ghost-buster"] => some (PutRoute.ghostBuster id)
  | ["api", "sightings", sid, "ghost-name"] => some (PutRoute.ghostName sid)
  | ["api", "users", id, "fights", gid] => some (PutRoute.fights id gid)
  | ["api", "users", id, "ghost-buster", "alias"] => some (PutRoute.ghostBusterAlias id)
  | _ => none

/-- A PUT request body: the union of the fields the four handlers read. -/
structure PutBody where
  fighting : Option Bool := none
  isGhostBuster : Option Bool := none
  newName : Option String := none
  gbAlias : Option String := none
deriving DecidableEq, Repr

/-- Dispatch a PUT request: route the path, run the matched handler (path
parameters arrive as strings and are coerced), and keep the HTTP status; an
unmatched path gets the Express default 404 and leaves the store unchanged. -/
def putDispatch (s : Store) (path : List String) (body : PutBody) : Nat × Store :=
  match matchPutRoute path with
  | some (PutRoute.fights id gid) =>
      let r := putUserFights s ((strToNat id).getD 0) ((strToNat gid).getD 0) body.fighting
      (r.1.status, r.2)
  | some (PutRoute.ghostBuster id) =>
      let r := putGhostBuster s ((strToNat id).getD 0) body.isGhostBuster
      (r.1.status, r.2)
  | some (PutRoute.ghostBusterAlias id) =>
      let r := putGhostBusterAlias s ((strToNat id).getD 0) body.gbAlias
      (r.1.status, r.2)
  | some (PutRoute.ghostName sid) =>
      let r := putSightingGhostName s ((strToNat sid).getD 0) body.newName
      (r.1.status, r.2)
  | none => (404, s)

/-- The frontend bust flow (GhostDetail handleBustGhost): first PUT the fight
toggle off, then PUT `/api/users/:id/ghost-buster/bust` expecting the
incremented counter back.  The two observed HTTP statuses and the final
store are returned. -/
def handleBustGhost (s : Store) (userId ghostId : Nat) : (Nat × Nat) × Store :=
  let first := putDispatch s ["api", "users", toString userId, "fights", toString ghostId]
    { fighting := some false }
  let second := putDispatch first.2
    ["api", "users", toString userId, "ghost-buster", "bust"] {}
  ((first.1, second.1), second.2)

/-! ### Concrete fixtures used by witnesses and counterexamples -/

/-- The example request of the spec: `{userReportID: 1, description: "saw a
shadow"}` with every optional field missing. -/
def c1Req : SightingReq :=
  { userId := none, userReportID := some 1, latitude := none, longitude := none,
    description := "saw a shadow", ghostID := none, timeOfSighting := none,
    visibility := JsVal.absent }

/-- The same request with the visibility field supplied as the empty string. -/
def c7Req : SightingReq := { c1Req with visibility := JsVal.str "" }

/-- The same request with visibility 9 (the spec example). -/
def c7ReqNum : SightingReq := { c1Req with visibility := JsVal.num 9 }

/-- A store with one registered user, for exercising the seed guard. -/
def c4Store : Store :=
  { emptyStore with users := [⟨1, "sam", "hash", "sam@example.com"⟩], nextUserId := 2 }

/-- A store with two sightings (latest first in table order), one user and
one linked ghost, for exercising the listings. -/
def c6Store : Store :=
  { emptyStore with
    users := [⟨1, "spooky_sam", "hash", "sam@example.com"⟩],
    ghosts := [⟨1, "Poltergeist", "The Knocker", "Knocks", 3⟩],
    sightings := [⟨1, 8, 20241031234500, 1, none, none, "first"⟩,
                  ⟨2, 5, 20241101023000, 1, none, none, "second"⟩],
    sightingReportsGhost := [⟨1, 1⟩],
    sightingComments := [⟨1, 1, 20241101100000, "later"⟩],
    ghostComments := [⟨1, 1, 20241025140000, "ghostly"⟩],
    nextUserId := 2, nextSightingId := 3, nextGhostId := 2 }

/-- A tour-creation request whose start time does not precede its end time. -/
def c8Req : TourReq :=
  { guide := "Ghostly Gerald", path := "Cemetery Gates", startTime := some 20241115220000,
    endTime := some 20241115190000, ghostIDs := some [1] }

/-- A store containing exactly user 1, so that the reporter foreign key of a
sighting INSERT by user 1 is satisfied. -/
def c7Store : Store :=
  { emptyStore with
    users := [⟨1, "spooky_sam", "hash", "sam@ghosthunters.com"⟩],
    nextUserId := 2 }

/-- A store where user 1 is a ghost buster with 47 busts who is fighting
ghost 1 (the seeded configuration of db_init.sql, reduced to one row each). -/
def c9Store : Store :=
  { emptyStore with
    users := [⟨1, "spooky_sam", "hashed_password_123", "sam@ghosthunters.com"⟩],
    ghosts := [⟨1, "Poltergeist", "The Knocker", "Knocks", 3⟩],
    ghostBusters := [⟨1, 47, some "The Specter Detector"⟩],
    fights := [⟨1, 1⟩],
    nextUserId := 2, nextGhostId := 2 }

/-- Two stores that differ only in the stored password hash of user 1. -/
def c10StoreA : Store :=
  { emptyStore with users := [⟨1, "spooky_sam", "hashA", "sam@ghosthunters.com"⟩] }

/-- See `c10StoreA`. -/
def c10StoreB : Store :=
  { emptyStore with users := [⟨1, "spooky_sam", "hashB", "sam@ghosthunters.com"⟩] }

/-! ### Helper lemmas -/

theorem filter_nil_of_none {α : Type} (p : α → Bool) (l : List α)
    (h : ∀ c ∈ l, p c = false) : l.filter p = [] := by
  induction l with
  | nil => rfl
  | cons a l ih =>
    have ha := h a (List.mem_cons_self a l)
    simp only [List.filter_cons, ha, Bool.false_eq_true, if_false]
    exact ih (fun c hc => h c (List.mem_cons_of_mem a hc))

theorem map_id_of_none {α : Type} (p : α → Bool) (g : α → α) (l : List α)
    (h : ∀ c ∈ l, p c = false) :
    l.map (fun c => if p c then g c else c) = l := by
  induction l with
  | nil => rfl
  | cons a l ih =>
    have ha := h a (List.mem_cons_self a l)
    simp only [List.map_cons, ha, Bool.false_eq_true, if_false]
    rw [ih (fun c hc => h c (List.mem_cons_of_mem a hc))]

theorem map_id_of_not {α : Type} (P : α → Prop) [DecidablePred P] (g : α → α) (l : List α)
    (h : ∀ c ∈ l, ¬P c) :
    l.map (fun c => if P c then g c else c) = l := by
  induction l with
  | nil => rfl
  | cons a l ih =>
    simp only [List.map_cons, if_neg (h a (List.mem_cons_self a l))]
    rw [ih (fun c hc => h c (List.mem_cons_of_mem a hc))]

theorem find?_append_of_none {α : Type} (p : α → Bool) (l l2 : List α)
    (h : ∀ c ∈ l, p c = false) : (l ++ l2).find? p = l2.find? p := by
  induction l with
  | nil => rfl
  | cons a l ih =>
    have ha := h a (List.mem_cons_self a l)
    rw [List.cons_append, List.find?_cons_of_neg _ (by simp [ha]),
      ih (fun c hc => h c (List.mem_cons_of_mem a hc))]

theorem filter_not_id_of_none {α : Type} (p : α → Bool) (l : List α)
    (h : ∀ c ∈ l, p c = false) : l.filter (fun c => !(p c)) = l := by
  induction l with
  | nil => rfl
  | cons a l ih =>
    have ha := h a (List.mem_cons_self a l)
    simp only [List.filter_cons, ha, Bool.not_false, if_true]
    rw [ih (fun c hc => h c (List.mem_cons_of_mem a hc))]

theorem createSightingCore_sightings (s : Store) (req : SightingReq) :
    (createSightingCore s req).2.sightings =
      s.sightings ++
        [{ id := s.nextSightingId, visibility := visibilityNum req.visibility,
           time := s.now, userReportID := (reporterOf req).getD 0,
           latitude := jsNumOrNull req.latitude, longitude := jsNumOrNull req.longitude,
           description := fullDescriptionOf req }] := by
  unfold createSightingCore findOrCreateUnknownGhost
  dsimp only
  repeat' split
  all_goals rfl

theorem sightingRespFor_append (s3 : Store) (sid : Nat) (visNum : Int) (nowDate : Nat)
    (reporter : Nat) (fullDescription : String) (l : List SightingRow) (row : SightingRow)
    (hs : s3.sightings = l ++ [row]) (hid : row.id = sid) (hl : ∀ r ∈ l, r.id ≠ sid) :
    sightingRespFor s3 sid visNum nowDate reporter fullDescription =
      ApiResult.ok 201
        { id := row.id,
          visibility := if row.visibility = 0 then visNum else row.visibility,
          time := if row.time = 0 then nowDate else row.time,
          userReportID := if row.userReportID = 0 then reporter else row.userReportID,
          latitude := row.latitude, longitude := row.longitude,
          description := if row.description = "" then fullDescription else row.description } := by
  unfold sightingRespFor
  rw [hs, find?_append_of_none _ _ _ (by intro r hr; simp [hl r hr]),
    @List.find?_cons_of_pos _ (fun x => x.id == sid) row [] (by simp [hid])]

theorem getUser_users_congr (uid : Nat) : ∀ (l1 l2 : List UserRow),
    l1.map scrubUser = l2.map scrubUser →
    (l1.find? (fun u => u.id == uid)).map scrubUser =
      (l2.find? (fun u => u.id == uid)).map scrubUser := by
  intro l1
  induction l1 with
  | nil =>
    intro l2 h
    rw [List.map_nil] at h
    rw [List.map_eq_nil_iff.mp h.symm]
  | cons a l ih =>
    intro l2 h
    cases l2 with
    | nil => simp at h
    | cons b t2 =>
      simp only [List.map_cons, List.cons.injEq] at h
      obtain ⟨hab, ht⟩ := h
      have hid : a.id = b.id := congrArg Prod.fst hab
      by_cases hp : (a.id == uid) = true
      · rw [@List.find?_cons_of_pos _ (fun u => u.id == uid) a l hp,
          @List.find?_cons_of_pos _ (fun u => u.id == uid) b t2
            (by show (b.id == uid) = true; rw [← hid]; exact hp)]
        simp [hab]
      · rw [@List.find?_cons_of_neg _ (fun u => u.id == uid) a l hp,
          @List.find?_cons_of_neg _ (fun u => u.id == uid) b t2
            (by show ¬(b.id == uid) = true; rw [← hid]; exact hp)]
        exact ih t2 ht

/-! ### Claim theorems -/

/-- C10: the public profile fetch never exposes credentials — `getUser`
projects only id, username and email, so any two stores whose user tables
agree on everything except password hashes yield identical responses for
every requested user id. -/
theorem getUser_no_password_leak (uid : Nat) (s1 s2 : Store)
    (h : s1.users.map scrubUser = s2.users.map scrubUser) :
    getUser s1 uid = getUser s2 uid := by
  have hfind := getUser_users_congr uid s1.users s2.users h
  unfold getUser
  cases h1 : s1.users.find? (fun u => u.id == uid) with
  | none =>
    rw [h1] at hfind
    cases h2 : s2.users.find? (fun u => u.id == uid) with
    | none => rfl
    | some b => rw [h2] at hfind; simp at hfind
  | some a =>
    rw [h1] at hfind
    cases h2 : s2.users.find? (fun u => u.id == uid) with
    | none => rw [h2] at hfind; simp at hfind
    | some b =>
      rw [h2] at hfind
      simp only [Option.map] at hfind
      have hab : scrubUser a = scrubUser b := Option.some.inj hfind
      have hid : a.id = b.id := congrArg Prod.fst hab
      have hun : a.username = b.username := congrArg (fun x => x.2.1) hab
      have hem : a.email = b.email := congrArg (fun x => x.2.2) hab
      simp only []
      rw [hid, hun, hem]

/-- C10 witness: two concrete stores differing only in the password hash of
user 1 produce the same public profile response. -/
theorem getUser_no_password_leak_wit :
    c10StoreA.users.map scrubUser = c10StoreB.users.map scrubUser ∧
    getUser c10StoreA 1 = getUser c10StoreB 1 :=
  ⟨by decide, getUser_no_password_leak 1 c10StoreA c10StoreB (by decide)⟩

/-- C4: bootstrap seeding is guarded by the User count — the seed statements
run exactly when the User table is empty, a bootstrap on a non-empty store is
the identity, and bootstrapping twice equals bootstrapping once. -/
theorem bootstrap_seed_guard (s : Store) :
    (s.users = [] → bootstrap s = seedStatements s) ∧
    (s.users ≠ [] → bootstrap s = s) ∧
    bootstrap (bootstrap s) = bootstrap s := by
  refine ⟨?_, ?_, ?_⟩
  · intro h
    simp [bootstrap, h]
  · intro h
    simp [bootstrap, h]
  · by_cases h : s.users = []
    · have h1 : bootstrap s = seedStatements s := by simp [bootstrap, h]
      rw [h1]
      have h2 : (seedStatements s).users ≠ [] := by
        simp [seedStatements]
      simp [bootstrap, h2]
    · have h1 : bootstrap s = s := by simp [bootstrap, h]
      rw [h1, h1]

/-- C4 witness: on a store whose User table already holds a row, bootstrap
leaves every row unchanged. -/
theorem bootstrap_seed_guard_wit :
    c4Store.users ≠ [] ∧ bootstrap c4Store = c4Store :=
  ⟨by decide, (bootstrap_seed_guard c4Store).2.1 (by decide)⟩

/-- C2: posting a comment twice for the same (user, target) pair — for a
sighting target and for a ghost target alike — inserts on the first post
(201), updates in place on the second (200), and leaves exactly one stored
row for the pair, carrying the second description. -/
theorem postComment_upsert_single_row (s : Store) (u t : Nat) (d1 d2 : String)
    (hu : u ≠ 0) (h1 : d1 ≠ "") (h2 : d2 ≠ "")
    (hS : ∀ c ∈ s.sightingComments, ¬(c.userID = u ∧ c.sightingID = t))
    (hG : ∀ c ∈ s.ghostComments, ¬(c.userID = u ∧ c.ghostID = t)) :
    ((postSightingComment s t (some u) d1).1.status = 201 ∧
     (postSightingComment (postSightingComment s t (some u) d1).2 t (some u) d2).1.status = 200 ∧
     ((postSightingComment (postSightingComment s t (some u) d1).2 t
        (some u) d2).2.sightingComments.filter
        (fun c => c.userID == u && c.sightingID == t)) = [⟨u, t, s.now, d2⟩]) ∧
    ((postGhostComment s t (some u) d1).1.status = 201 ∧
     (postGhostComment (postGhostComment s t (some u) d1).2 t (some u) d2).1.status = 200 ∧
     ((postGhostComment (postGhostComment s t (some u) d1).2 t
        (some u) d2).2.ghostComments.filter
        (fun c => c.userID == u && c.ghostID == t)) = [⟨u, t, s.now, d2⟩]) := by
  have hSb : ∀ c ∈ s.sightingComments, (c.userID == u && c.sightingID == t) = false := by
    intro c hc
    cases hb : (c.userID == u && c.sightingID == t) with
    | false => rfl
    | true =>
      rw [Bool.and_eq_true, beq_iff_eq, beq_iff_eq] at hb
      exact absurd hb (hS c hc)
  have hGb : ∀ c ∈ s.ghostComments, (c.userID == u && c.ghostID == t) = false := by
    intro c hc
    cases hb : (c.userID == u && c.ghostID == t) with
    | false => rfl
    | true =>
      rw [Bool.and_eq_true, beq_iff_eq, beq_iff_eq] at hb
      exact absurd hb (hG c hc)
  constructor
  · have e1 : postSightingComment s t (some u) d1 =
        (ApiResult.ok 201 ⟨u, t, d1, none⟩,
         { s with sightingComments := s.sightingComments ++ [⟨u, t, s.now, d1⟩] }) := by
      unfold postSightingComment
      simp only [Option.getD_some]
      rw [filter_nil_of_none _ _ hSb]
      simp [natFieldTruthy, hu, h1]
    have e2 : postSightingComment
        { s with sightingComments := s.sightingComments ++ [⟨u, t, s.now, d1⟩] } t
        (some u) d2 =
        (ApiResult.ok 200 ⟨u, t, d2, some "Comment updated"⟩,
         { s with sightingComments := s.sightingComments ++ [⟨u, t, s.now, d2⟩] }) := by
      unfold postSightingComment
      simp only [Option.getD_some]
      rw [List.filter_append, filter_nil_of_none _ _ hSb, List.map_append]
      simp [natFieldTruthy, hu, h2]
      exact map_id_of_not _ _ _ hS
    rw [e1, e2]
    refine ⟨rfl, rfl, ?_⟩
    rw [List.filter_append, filter_nil_of_none _ _ hSb]
    simp
  · have e1 : postGhostComment s t (some u) d1 =
        (ApiResult.ok 201 ⟨u, t, d1, none⟩,
         { s with ghostComments := s.ghostComments ++ [⟨u, t, s.now, d1⟩] }) := by
      unfold postGhostComment
      simp only [Option.getD_some]
      rw [filter_nil_of_none _ _ hGb]
      simp [natFieldTruthy, hu, h1]
    have e2 : postGhostComment
        { s with ghostComments := s.ghostComments ++ [⟨u, t, s.now, d1⟩] } t
        (some u) d2 =
        (ApiResult.ok 200 ⟨u, t, d2, some "Comment updated"⟩,
         { s with ghostComments := s.ghostComments ++ [⟨u, t, s.now, d2⟩] }) := by
      unfold postGhostComment
      simp only [Option.getD_some]
      rw [List.filter_append, filter_nil_of_none _ _ hGb, List.map_append]
      simp [natFieldTruthy, hu, h2]
      exact map_id_of_not _ _ _ hG
    rw [e1, e2]
    refine ⟨rfl, rfl, ?_⟩
    rw [List.filter_append, filter_nil_of_none _ _ hGb]
    simp

/-- C2 witness: user 1 posting twice on sighting 1 and ghost 1 of the empty
store ends with single rows holding the second description. -/
theorem postComment_upsert_single_row_wit :
    (1 : Nat) ≠ 0 ∧
    ((postSightingComment (postSightingComment emptyStore 1 (some 1) "first").2 1
        (some 1) "second").2.sightingComments.filter
        (fun c => c.userID == 1 && c.sightingID == 1)) =
      [⟨1, 1, emptyStore.now, "second"⟩] :=
  ⟨by decide,
   ((postComment_upsert_single_row emptyStore 1 1 "first" "second" (by decide)
      (by decide) (by decide) (by intro c hc; simp [emptyStore] at hc)
      (by intro c hc; simp [emptyStore] at hc)).1).2.2⟩

/-- C5: tour membership toggling is idempotent — from a state without the
membership row, the first join inserts (201), the second join is a no-op
success (200) leaving the store untouched, exactly one membership row for the
pair exists after the two joins, and leaving without a membership row deletes
nothing and still answers 200. -/
theorem tour_membership_idempotent (s : Store) (u tid : Nat)
    (hu : u ≠ 0)
    (hn : ∀ r ∈ s.tourSignUps, ¬(r.userID = u ∧ r.tourID = tid)) :
    ((joinTour s tid (some u)).1.status = 201 ∧
     (joinTour (joinTour s tid (some u)).2 tid (some u)).1.status = 200 ∧
     (joinTour (joinTour s tid (some u)).2 tid (some u)).2 = (joinTour s tid (some u)).2 ∧
     ((joinTour (joinTour s tid (some u)).2 tid (some u)).2.tourSignUps.filter
        (fun r => r.userID == u && r.tourID == tid)).length = 1) ∧
    ((leaveTour s tid (some u)).1.status = 200 ∧ (leaveTour s tid (some u)).2 = s) := by
  have hb : ∀ r ∈ s.tourSignUps, (r.userID == u && r.tourID == tid) = false := by
    intro r hr
    cases hx : (r.userID == u && r.tourID == tid) with
    | false => rfl
    | true =>
      rw [Bool.and_eq_true, beq_iff_eq, beq_iff_eq] at hx
      exact absurd hx (hn r hr)
  have e1 : joinTour s tid (some u) =
      (ApiResult.ok 201 ⟨none, some u, some tid⟩,
       { s with tourSignUps := s.tourSignUps ++ [⟨u, tid⟩] }) := by
    unfold joinTour
    simp only [Option.getD_some]
    rw [filter_nil_of_none _ _ hb]
    simp [natFieldTruthy, hu]
  have e2 : joinTour { s with tourSignUps := s.tourSignUps ++ [⟨u, tid⟩] } tid (some u) =
      (ApiResult.ok 200 ⟨some "already_signed_up", none, none⟩,
       { s with tourSignUps := s.tourSignUps ++ [⟨u, tid⟩] }) := by
    unfold joinTour
    simp only [Option.getD_some]
    rw [List.filter_append, filter_nil_of_none _ _ hb]
    simp [natFieldTruthy, hu]
  refine ⟨?_, ?_⟩
  · rw [e1, e2]
    refine ⟨rfl, rfl, rfl, ?_⟩
    rw [List.filter_append, filter_nil_of_none _ _ hb]
    simp
  · unfold leaveTour
    simp only [Option.getD_some]
    rw [filter_not_id_of_none _ _ hb]
    simp [natFieldTruthy, hu, ApiResult.status]

/-- C5 witness: user 1 joining tour 1 of the empty store twice, and leaving
tour 1 of the empty store, behave as the theorem states. -/
theorem tour_membership_idempotent_wit :
    ((joinTour (joinTour emptyStore 1 (some 1)).2 1 (some 1)).2.tourSignUps.filter
      (fun r => r.userID == 1 && r.tourID == 1)).length = 1 ∧
    (leaveTour emptyStore 1 (some 1)).2 = emptyStore :=
  ⟨((tour_membership_idempotent emptyStore 1 1 (by decide)
      (by intro r hr; simp [emptyStore] at hr)).1).2.2.2,
   ((tour_membership_idempotent emptyStore 1 1 (by decide)
      (by intro r hr; simp [emptyStore] at hr)).2).2⟩

/-- C3: a sighting-creation request without a Ghost id associates the new
Sighting with the sentinel Ghost named Unknown — reusing the first existing
Ghost row of that name when present, otherwise inserting one — and in both
cases appends a Sighting_Reports_Ghost link row from the new Sighting to that
Ghost. -/
theorem createSighting_links_unknown_ghost (s : Store) (u : Nat) (d : String)
    (lat lon : Option Int) (tos : Option String) (vis : JsVal)
    (hu : u ≠ 0) (hd : d ≠ "")
    (hg : ∀ g ∈ s.ghosts, g.id ≠ 0) (hnext : s.nextGhostId ≠ 0) :
    match s.ghosts.find? (fun g => g.name == "Unknown") with
    | some g =>
        (createSighting s ⟨none, some u, lat, lon, d, none, tos, vis⟩).2.ghosts = s.ghosts ∧
        (createSighting s ⟨none, some u, lat, lon, d, none, tos, vis⟩).2.sightingReportsGhost
          = s.sightingReportsGhost ++ [⟨s.nextSightingId, g.id⟩]
    | none =>
        (createSighting s ⟨none, some u, lat, lon, d, none, tos, vis⟩).2.ghosts =
          s.ghosts ++ [⟨s.nextGhostId, "Unknown", "Unknown",
            "Unidentified paranormal entity", visibilityNum vis⟩] ∧
        (createSighting s ⟨none, some u, lat, lon, d, none, tos, vis⟩).2.sightingReportsGhost
          = s.sightingReportsGhost ++ [⟨s.nextSightingId, s.nextGhostId⟩] := by
  have hval : sightingValidationFails ⟨none, some u, lat, lon, d, none, tos, vis⟩ = false := by
    simp [sightingValidationFails, reporterOf, natFieldTruthy, hu, hd]
  cases hfind : s.ghosts.find? (fun g => g.name == "Unknown") with
  | some g =>
    have hgid : g.id ≠ 0 := hg g (List.mem_of_find?_eq_some hfind)
    constructor
    · simp [createSighting, hval, createSightingCore, findOrCreateUnknownGhost,
        natFieldTruthy, hfind, hgid]
    · simp [createSighting, hval, createSightingCore, findOrCreateUnknownGhost,
        natFieldTruthy, hfind, hgid]
  | none =>
    constructor
    · simp [createSighting, hval, createSightingCore, findOrCreateUnknownGhost,
        natFieldTruthy, hfind, hnext]
    · simp [createSighting, hval, createSightingCore, findOrCreateUnknownGhost,
        natFieldTruthy, hfind, hnext]

/-- C3 witness: creating a sighting on the empty store (no Ghost named
Unknown exists) inserts the sentinel Ghost with id 1 and links the new
sighting 1 to it. -/
theorem createSighting_links_unknown_ghost_wit :
    (createSighting emptyStore c1Req).2.ghosts =
      [⟨1, "Unknown", "Unknown", "Unidentified paranormal entity", 5⟩] ∧
    (createSighting emptyStore c1Req).2.sightingReportsGhost = [⟨1, 1⟩] :=
  createSighting_links_unknown_ghost emptyStore 1 "saw a shadow" none none none
    JsVal.absent (by decide) (by decide) (by intro g hg0; simp [emptyStore] at hg0)
    (by decide)

/-- C7 counterexample: supplying the visibility field as the empty string —
present, but not a numeric value — does not produce the claimed default of 5:
`Number("")` is `0` in JavaScript, so against a store that contains the
reporter (user 1, so every foreign key holds and the request really
succeeds) the sighting is stored and echoed with visibility 0. -/
theorem visibility_empty_string_counterexample :
    c7Req.visibility.isNum = false ∧ c7Req.visibility ≠ JsVal.absent ∧
    c7Req.visibility ≠ JsVal.nullv ∧
    (createSightingWithFk c7Store c7Req).1 =
      ApiResult.ok 201 ⟨1, 0, c7Store.now, 1, none, none, "saw a shadow"⟩ ∧
    ((createSightingWithFk c7Store c7Req).2.sightings.map (fun r => r.visibility)) = [0] ∧
    (0 : Int) ≠ 5 := by
  refine ⟨by decide, by decide, by decide, by decide, by decide, by decide⟩

/-- C7 amended: for every sighting-creation request that passes validation
and satisfies the store's foreign keys (the reporter exists in User, and a
supplied ghost id exists in Ghost), the stored and the echoed visibility both
equal `visibilityNum` of the supplied value — the JavaScript `Number(...)`
coercion when it is not NaN (so numeric strings, booleans and the empty
string are stored as their coerced numbers), and the default 5 exactly when
the field is absent, null, or coerces to NaN. -/
theorem createSighting_visibility_coercion (s : Store) (req : SightingReq)
    (hval : sightingValidationFails req = false)
    (hfresh : ∀ r ∈ s.sightings, r.id ≠ s.nextSightingId)
    (hrep : ∃ w ∈ s.users, w.id = (reporterOf req).getD 0)
    (hgst : natFieldTruthy req.ghostID = true →
      ∃ g ∈ s.ghosts, g.id = req.ghostID.getD 0) :
    ∃ body, (createSightingWithFk s req).1 = ApiResult.ok 201 body ∧
      body.visibility = visibilityNum req.visibility ∧
      ∃ r ∈ (createSightingWithFk s req).2.sightings,
        r.id = s.nextSightingId ∧ r.visibility = visibilityNum req.visibility := by
  have hrow := createSightingCore_sightings s req
  have hresp : (createSightingCore s req).1 =
      ApiResult.ok 201
        { id := s.nextSightingId,
          visibility := if visibilityNum req.visibility = 0 then visibilityNum req.visibility
            else visibilityNum req.visibility,
          time := if s.now = 0 then s.now else s.now,
          userReportID := if (reporterOf req).getD 0 = 0 then (reporterOf req).getD 0
            else (reporterOf req).getD 0,
          latitude := jsNumOrNull req.latitude, longitude := jsNumOrNull req.longitude,
          description := if fullDescriptionOf req = "" then fullDescriptionOf req
            else fullDescriptionOf req } :=
    sightingRespFor_append ((createSightingCore s req).2) s.nextSightingId
      (visibilityNum req.visibility) s.now ((reporterOf req).getD 0)
      (fullDescriptionOf req) s.sightings _ hrow rfl hfresh
  have h1 : (s.users.find? (fun w => w.id == (reporterOf req).getD 0)).isNone = false := by
    obtain ⟨w, hw, hid⟩ := hrep
    have hsome : (s.users.find? (fun w => w.id == (reporterOf req).getD 0)).isSome := by
      rw [List.find?_isSome]
      exact ⟨w, hw, by simp [hid]⟩
    cases hfind : s.users.find? (fun w => w.id == (reporterOf req).getD 0) with
    | none => rw [hfind] at hsome; simp at hsome
    | some _ => rfl
  have h2 : (natFieldTruthy req.ghostID &&
      (s.ghosts.find? (fun g => g.id == req.ghostID.getD 0)).isNone) = false := by
    cases ht : natFieldTruthy req.ghostID with
    | false => rfl
    | true =>
      obtain ⟨g, hg, hid⟩ := hgst ht
      have hsome : (s.ghosts.find? (fun g => g.id == req.ghostID.getD 0)).isSome := by
        rw [List.find?_isSome]
        exact ⟨g, hg, by simp [hid]⟩
      cases hfind : s.ghosts.find? (fun g => g.id == req.ghostID.getD 0) with
      | none => rw [hfind] at hsome; simp at hsome
      | some _ => rfl
  have hcs : createSightingWithFk s req = createSightingCore s req := by
    unfold createSightingWithFk
    rw [hval, h1, h2]
    simp
  rw [hcs]
  refine ⟨_, hresp, ?_, ?_⟩
  · by_cases h0 : visibilityNum req.visibility = 0 <;> simp [h0]
  · have hmem :
        ({ id := s.nextSightingId, visibility := visibilityNum req.visibility,
           time := s.now, userReportID := (reporterOf req).getD 0,
           latitude := jsNumOrNull req.latitude, longitude := jsNumOrNull req.longitude,
           description := fullDescriptionOf req } : SightingRow) ∈
          (createSightingCore s req).2.sightings := by
      rw [hrow]
      exact List.mem_append_right _ (List.mem_singleton.mpr rfl)
    exact ⟨_, hmem, rfl, rfl⟩

/-- C7 amended witness: the spec example with visibility 9, posted by the
existing user 1, stores and echoes visibility 9. -/
theorem createSighting_visibility_coercion_wit :
    sightingValidationFails c7ReqNum = false ∧
    (∃ body, (createSightingWithFk c7Store c7ReqNum).1 = ApiResult.ok 201 body ∧
      body.visibility = visibilityNum c7ReqNum.visibility ∧
      ∃ r ∈ (createSightingWithFk c7Store c7ReqNum).2.sightings,
        r.id = c7Store.nextSightingId ∧ r.visibility = visibilityNum c7ReqNum.visibility) :=
  ⟨by decide,
   createSighting_visibility_coercion c7Store c7ReqNum (by decide)
     (by intro r hr; simp [c7Store, emptyStore] at hr)
     ⟨⟨1, "spooky_sam", "hash", "sam@ghosthunters.com"⟩, by decide, by decide⟩
     (fun h => absurd h (by decide))⟩

/-- C1 (schema/handler mismatch): the INSERT of POST /api/sightings names a
description column that `CREATE TABLE Sighting` in backend/db_init.sql does
not define, so against a store initialized from the shipped schema the spec
example request fails with 500 `{error: internal}` and stores nothing —
instead of succeeding with 201 and the echoed description. -/
theorem createSighting_fails_on_shipped_schema :
    ("description" ∈ sightingInsertColumns ∧ "description" ∉ sightingTableColumns) ∧
    sightingInsertAccepted = false ∧
    (createSightingShipped (bootstrap emptyStore) c1Req).1 = ApiResult.err 500 "internal" ∧
    (createSightingShipped (bootstrap emptyStore) c1Req).2 = bootstrap emptyStore :=
  ⟨by decide, by decide, rfl, rfl⟩

/-- C6 counterexample: on the freshly bootstrapped development store the
sighting listing is NOT ordered by time descending.  The seed phase executes
the unbound-parameter `INSERT INTO Sighting` of db_init.sql (node-sqlite3
binds the missing parameters as NULL), leaving a NULL-time row; under
`ORDER BY S.time DESC` that row sorts last, but the JS mapping replaces its
falsy time with the current date, so the returned list ends with its largest
time. -/
theorem listSightings_bootstrap_not_descending :
    (⟨6, 0, 0, 0, none, none, ""⟩ : SightingRow) ∈ (bootstrap emptyStore).sightings ∧
    ((listSightings (bootstrap emptyStore)).map (fun x => x.time)) =
      [20241104010000, 20241103032000, 20241102001500, 20241101023000, 20241031234500,
       20251011000000] ∧
    ¬List.Sorted (fun a b : SightingListItem => b.time ≤ a.time)
      (listSightings (bootstrap emptyStore)) := by
  refine ⟨by decide, by decide, by decide⟩

/-- C6 amended: both comment listings are ordered by report time ascending
for every store; the sighting listing is ordered by sighting time descending
on the stores whose stored sighting times are all non-NULL — which the
freshly bootstrapped store is not (see the counterexample above): a NULL
time sorts last under DESC but is echoed as the current date. -/
theorem listings_ordered (s : Store) (sid gid : Nat)
    (hts : ∀ r ∈ s.sightings, r.time ≠ 0) :
    List.Sorted (fun a b : SightingListItem => b.time ≤ a.time) (listSightings s) ∧
    List.Sorted (fun a b : CommentListItem => a.reportTime ≤ b.reportTime)
      (listSightingComments s sid) ∧
    List.Sorted (fun a b : CommentListItem => a.reportTime ≤ b.reportTime)
      (listGhostComments s gid) := by
  refine ⟨?_, ?_, ?_⟩
  · unfold listSightings
    show (List.map _ _).Pairwise _
    rw [List.pairwise_map]
    refine List.Pairwise.imp_of_mem ?_ (List.sorted_insertionSort sightingTimeDesc s.sightings)
    intro a b ha hb hab
    have hta : a.time ≠ 0 := hts a ((List.mem_insertionSort _).mp ha)
    have htb : b.time ≠ 0 := hts b ((List.mem_insertionSort _).mp hb)
    show (if b.time = 0 then s.now else b.time) ≤ (if a.time = 0 then s.now else a.time)
    rw [if_neg htb, if_neg hta]
    exact hab
  · unfold listSightingComments
    show (List.map _ _).Pairwise _
    rw [List.pairwise_map]
    exact List.Pairwise.imp (fun hab => hab) (List.sorted_insertionSort scReportTimeAsc _)
  · unfold listGhostComments
    show (List.map _ _).Pairwise _
    rw [List.pairwise_map]
    exact List.Pairwise.imp (fun hab => hab) (List.sorted_insertionSort gcReportTimeAsc _)

/-- C6 witness: the concrete two-sighting store lists sightings newest first
and its comment listings oldest first. -/
theorem listings_ordered_wit :
    List.Sorted (fun a b : SightingListItem => b.time ≤ a.time) (listSightings c6Store) ∧
    List.Sorted (fun a b : CommentListItem => a.reportTime ≤ b.reportTime)
      (listSightingComments c6Store 1) :=
  ⟨(listings_ordered c6Store 1 1 (by decide)).1,
   (listings_ordered c6Store 1 1 (by decide)).2.1⟩

/-- C8 (constraint never installed): the `checkTime` CHECK written in
db_init.sql is dead text — its ALTER TABLE chunk, like the `CREATE TABLE
User` chunk, begins with a section-comment line and fails the create-phase
test, and every seed-phase attempt to run it errors and is swallowed (SQLite
has no ADD CONSTRAINT; MySQL rejects the `----` spelling, and on a fresh
database never reaches seeding).  The handler compares nothing, so against
the bootstrapped development store POST /api/tours stores a Tour whose
startTime does not precede its endTime and answers 201. -/
theorem tour_time_inversion_stored :
    chunkRunsInCreatePhase createTableUserChunk = false ∧
    chunkRunsInCreatePhase alterCheckTimeChunk = false ∧
    (createTour (bootstrap emptyStore) c8Req).1.status = 201 ∧
    (⟨6, 20241115220000, 20241115190000, "Ghostly Gerald", "Cemetery Gates"⟩ : TourRow) ∈
      (createTour (bootstrap emptyStore) c8Req).2.tours ∧
    ¬(20241115220000 : Nat) < 20241115190000 := by
  refine ⟨by decide, by decide, by decide, by decide, by decide⟩

/-- C9 (missing endpoint): the bust flow is not atomic — the frontend first
PUTs the fight toggle off (200, deleting the fight row) and then PUTs
/api/users/1/ghost-buster/bust, which matches no route registered in
server.js (404), so the observable final state has the fight record removed
while ghosts_busted is still 47: one effect without the other. -/
theorem bustGhost_not_atomic :
    matchPutRoute ["api", "users", "1", "ghost-buster", "bust"] = none ∧
    (handleBustGhost c9Store 1 1).1.1 = 200 ∧
    (handleBustGhost c9Store 1 1).1.2 = 404 ∧
    (handleBustGhost c9Store 1 1).2.fights = [] ∧
    (handleBustGhost c9Store 1 1).2.ghostBusters = [⟨1, 47, some "The Specter Detector"⟩] := by
  refine ⟨rfl, ?_, ?_, ?_, ?_⟩ <;> decide

end GhostReport
